import Mathlib

set_option linter.unusedVariables false

/-!
Shallow embedding of the runtime-lifecycle coordinator of this repository:
the Windows libcontainerd client (`Create`, `Signal` in
libcontainerd/client_windows.go) and the daemon's state-event dispatcher and
stream attachment (`StateChanged`, `AttachStreams` in daemon/monitor.go).

External effects (runtime calls, sleeps, container deletion, engine events,
log warnings, spawned copy goroutines) are made explicit in the result
records, so that each function is a pure description of the control flow of
the corresponding Go function.
-/

namespace Docker

/-! ## Errors of the Windows client

Win32 error codes that client_windows.go compares against when deciding
whether a creation failure is transient.  The names mirror the constants of
the source (syscall.ERROR_NOT_FOUND, syscall.ERROR_FILE_NOT_FOUND,
ErrorNoNetwork, ErrorBadPathname, CoEClassstring, ErrorInvalidObject);
`otherCode` stands for every other Win32 code. -/
inductive HcsCode where
  | errorNotFound
  | errorFileNotFound
  | errorNoNetwork
  | errorBadPathname
  | coEClassstring
  | errorInvalidObject
  | otherCode (n : Nat)
deriving DecidableEq, Repr

/-- A Go error as observed by Create: either a *hcsshim.HcsError carrying a
Win32 code in its Err field, or any other error value. -/
inductive GoErr where
  | hcs (code : HcsCode)
  | other (msg : String)
deriving DecidableEq, Repr

/-- The retry condition of the TP4 workaround in Create: the loop retries
exactly when herr.Err is one of the six enumerated codes
(client_windows.go lines 241-246). -/
def isTransientCode : HcsCode → Bool
  | .otherCode _ => false
  | _ => true

/-! ## Create (client_windows.go lines 104-266)

Only the creation-submission phase and the start/cleanup phase are modelled;
the spec-translation phase of Create (which either fails before any runtime
call or produces the configuration payload) is embedded separately as
`translatePortBindings` below.  `ccs i` is the result of the i-th
hcsshim.CreateComputeSystem call (none = success); `startRes` is the result
of container.start(). -/

/-- Outcome of the TP4 retry loop.  `attempts` counts CreateComputeSystem
calls, `sleeps` counts 50ms time.Sleep calls, `err` is the value of the Go
variable err when control leaves the loop, `aborted` is true when the loop
body executed `return err` (non-transient HcsError). -/
structure LoopOut where
  attempts : Nat
  sleeps : Nat
  err : Option GoErr
  aborted : Bool
deriving DecidableEq, Repr

/-- The TP4 retry loop of Create (client_windows.go lines 233-253).
`fuel` is the number of loop iterations still allowed (initially
maxAttempts = 5); `att` is the index i of the next attempt; `sl` the sleeps
so far; the last argument the current value of err.  A failure that is not
an HcsError is neither returned nor slept on: the loop simply retries. -/
def tp4Loop (ccs : Nat → Option GoErr) : Nat → Nat → Nat → Option GoErr → LoopOut
  | 0, att, sl, e => ⟨att, sl, e, false⟩
  | fuel + 1, att, sl, _ =>
    match ccs att with
    | none => ⟨att + 1, sl, none, false⟩
    | some (GoErr.hcs c) =>
      if isTransientCode c then
        tp4Loop ccs fuel (att + 1) (sl + 1) (some (GoErr.hcs c))
      else ⟨att + 1, sl, some (GoErr.hcs c), true⟩
    | some (GoErr.other m) => tp4Loop ccs fuel (att + 1) sl (some (GoErr.other m))

/-- Observable outcome of Create: the returned error, the number of
CreateComputeSystem attempts, the number of 50ms sleeps, whether
c.deleteContainer(id) ran (via the deferred cleanup), and whether
container.start() was called. -/
structure CreateOut where
  result : Option GoErr
  attempts : Nat
  sleeps : Nat
  deleted : Bool
  startCalled : Bool
deriving DecidableEq, Repr

/-- Create (client_windows.go lines 225-266), from the point where the
configuration has been marshalled.  On the non-TP4 path a single
CreateComputeSystem failure is returned at once (the err of that path is a
fresh variable, so the deferred cleanup never sees it).  On the TP4 path the
retry loop runs; note that when the loop exhausts its 5 attempts the code
falls through to newContainer/start with err still set, so the deferred
`if err != nil { c.deleteContainer(id) }` fires while the value returned is
that of container.start().  `return container.start()` does not assign the
outer err (the return value of Create is unnamed), so a start failure after
a clean creation never triggers the deferred delete. -/
def Create (isTP4 : Bool) (ccs : Nat → Option GoErr) (startRes : Option GoErr) : CreateOut :=
  if isTP4 = false then
    match ccs 0 with
    | some e => ⟨some e, 1, 0, false, false⟩
    | none => ⟨startRes, 1, 0, false, true⟩
  else
    let lo := tp4Loop ccs 5 0 0 none
    if lo.aborted then ⟨lo.err, lo.attempts, lo.sleeps, false, false⟩
    else ⟨startRes, lo.attempts, lo.sleeps, lo.err.isSome, true⟩

end Docker

namespace Docker

/-- Auxiliary: a run of attempts that all fail with transient HcsErrors. -/
def allTransient (ccs : Nat → Option GoErr) : Prop :=
  ∀ i, i < 5 → ∃ c, ccs i = some (GoErr.hcs c) ∧ isTransientCode c = true

/-! ## Signal (client_windows.go lines 273-311)

The container table of the client (clientCommon.containers, keyed by id,
each holding the tracked systemPid) is not under src/. -/

/-- A call issued to the HCS runtime by Signal. -/
inductive RuntimeCall where
  | terminateComputeSystem (id : String)
  | terminateProcessInComputeSystem (id : String) (pid : Nat)
  | shutdownComputeSystem (id : String)
deriving DecidableEq, Repr

/-- Numeric value of syscall.SIGKILL in the Go syscall package. -/
def SIGKILL : Int := 9

/-- Modelled from the spec: clientCommon.getContainer is not under src/;
the spec describes it as looking the container handle up in the client's
table and failing with NotFound when absent.  The table maps ids to the
tracked systemPid of the container handle. -/
def getContainer (table : List (String × Nat)) (id : String) : Option Nat :=
  (table.find? (fun p => p.fst = id)).map Prod.snd

/-- Signal (client_windows.go lines 273-311).  The three Bool arguments say
whether the terminate-container, signal-process and shutdown runtime calls
fail; the body issues the same calls and returns the same value whatever
their outcomes, because every runtime failure is only logged (the
signal-process error is even explicitly overwritten with nil).  The result
pairs the returned error with the list of runtime calls in order. -/
def Signal (table : List (String × Nat)) (id : String) (sig : Int)
    (termFails sigProcFails shutFails : Bool) : Option String × List RuntimeCall :=
  match getContainer table id with
  | none => (some ("no such container: " ++ id), [])
  | some pid =>
    if sig = SIGKILL then
      (none, [RuntimeCall.terminateComputeSystem id])
    else
      (none, [RuntimeCall.terminateProcessInComputeSystem id pid,
              RuntimeCall.shutdownComputeSystem id])

/-! ## StateChanged (daemon/monitor.go lines 16-113)

The container type of the daemon (package container) is not under src/;
its fields and the helpers Reset, SetStopped, SetRestarting, SetRunning and
ToDisk are modelled from the spec, as noted on each definition. -/

/-- An exec session tracked in a container's ExecCommands store. -/
structure ExecConfig where
  id : String
  exitCode : Option Int
  running : Bool
  streamsClosed : Bool
deriving DecidableEq, Repr

/-- Modelled from the spec: the daemon's container handle is not under src/.
Fields follow section 3 of the spec (id, pid, paused, restart count, exec
table) plus the flags monitor.go reads and writes (running/restarting state,
HasBeenManuallyStopped, the exit code of the recorded exit status, and the
fresh-start flag passed to SetRunning). -/
structure ContainerState where
  id : String
  running : Bool
  restarting : Bool
  paused : Bool
  pid : Nat
  restartCount : Nat
  hasBeenManuallyStopped : Bool
  exitCode : Int
  startedFresh : Bool
  execCommands : List ExecConfig
deriving DecidableEq, Repr

/-- Modelled from the spec: container.Reset is not under src/.  The spec
describes it as resetting runtime-specific transient fields, and on the
Start/Restore persistence-failure path as rolling the state back to
non-running. -/
def ContainerState.reset (c : ContainerState) : ContainerState :=
  { c with running := false }

/-- Modelled from the spec: container.SetStopped is not under src/.  The
spec: records the container as stopped with the platform-normalized exit
status. -/
def ContainerState.setStopped (c : ContainerState) (ec : Int) : ContainerState :=
  { c with running := false, restarting := false, pid := 0, exitCode := ec }

/-- Modelled from the spec: container.SetRestarting is not under src/.  The
spec: marks the container restarting (not terminally stopped), with the
exit status of the event. -/
def ContainerState.setRestarting (c : ContainerState) (ec : Int) : ContainerState :=
  { c with restarting := true, exitCode := ec }

/-- Modelled from the spec: container.SetRunning is not under src/.  The
spec: records the runtime-assigned process id and marks the container
running; the second argument distinguishes a fresh Start from a Restore. -/
def ContainerState.setRunning (c : ContainerState) (pid : Nat) (fresh : Bool) : ContainerState :=
  { c with running := true, restarting := false, pid := pid, startedFresh := fresh }

/-- The State tag of a libcontainerd.StateInfo event (monitor.go switch). -/
inductive EventState where
  | oom
  | exit
  | exitProcess
  | restart
  | start
  | restore
  | pause
  | resume
deriving DecidableEq, Repr

/-- A libcontainerd.StateInfo event: the fields monitor.go reads. -/
structure StateInfo where
  state : EventState
  pid : Nat
  processID : String
  exitCode : Int
deriving DecidableEq, Repr

/-- An engine-level event emitted via LogContainerEvent or
LogContainerEventWithAttributes. -/
inductive EngineEvent where
  | oomEvent
  | die (exitCode : Int)
  | pauseEvent
  | unpauseEvent
deriving DecidableEq, Repr

/-- Observable outcome of StateChanged: the in-memory container handle after
the call (none when the id was not in the registry), the state written by a
successful ToDisk during the call (none when ToDisk was not reached or
failed), the returned error, the engine events emitted, the number of
warning log lines, and whether daemon.Cleanup ran. -/
structure SCOut where
  c : Option ContainerState
  persisted : Option ContainerState
  result : Option String
  events : List EngineEvent
  warnings : Nat
  cleanupRan : Bool
deriving DecidableEq, Repr

/-- Registry lookup daemon.containers.Get (external collaborator): find the
container by id. -/
def findContainer (reg : List (String × ContainerState)) (id : String) :
    Option ContainerState :=
  (reg.find? (fun p => p.fst = id)).map Prod.snd

/-- StateChanged (daemon/monitor.go lines 16-113).  `goos` is runtime.GOOS;
`toDiskFails` says whether a c.ToDisk() call made by this event fails
(ToDisk is modelled from the spec: it persists the current in-memory state
to durable storage, or fails without persisting). -/
def StateChanged (goos : String) (reg : List (String × ContainerState)) (id : String)
    (e : StateInfo) (toDiskFails : Bool) : SCOut :=
  match findContainer reg id with
  | none => ⟨none, none, some ("no such container: " ++ id), [], 0, false⟩
  | some c =>
    match e.state with
    | EventState.oom =>
      if goos = "windows" then
        ⟨some c, none,
         some "Received StateOOM from libcontainerd on Windows. This should never happen.",
         [], 0, false⟩
      else
        ⟨some c, none, none, [EngineEvent.oomEvent], 0, false⟩
    | EventState.exit =>
      let c1 := (c.reset).setStopped e.exitCode
      if toDiskFails then
        ⟨some c1, none, some "toDisk failed", [EngineEvent.die e.exitCode], 0, true⟩
      else
        ⟨some c1, some c1, none, [EngineEvent.die e.exitCode], 0, true⟩
    | EventState.restart =>
      let c1 := c.reset
      let c2 := { c1 with restartCount := c1.restartCount + 1 }
      let c3 := c2.setRestarting e.exitCode
      if toDiskFails then
        ⟨some c3, none, some "toDisk failed", [EngineEvent.die e.exitCode], 0, false⟩
      else
        ⟨some c3, some c3, none, [EngineEvent.die e.exitCode], 0, false⟩
    | EventState.exitProcess =>
      match c.execCommands.find? (fun ec => ec.id = e.processID) with
      | none => ⟨some c, none, none, [], 1, false⟩
      | some ec =>
        let c1 := { c with execCommands :=
          c.execCommands.filter (fun x => x.id ≠ ec.id) }
        ⟨some c1, none, none, [], 0, false⟩
    | EventState.start | EventState.restore =>
      let c1 := c.setRunning e.pid (e.state = EventState.start)
      let c2 := { c1 with hasBeenManuallyStopped := false }
      if toDiskFails then
        ⟨some c2.reset, none, some "toDisk failed", [], 0, false⟩
      else
        ⟨some c2, some c2, none, [], 0, false⟩
    | EventState.pause =>
      ⟨some { c with paused := true }, none, none, [EngineEvent.pauseEvent], 0, false⟩
    | EventState.resume =>
      ⟨some { c with paused := false }, none, none, [EngineEvent.unpauseEvent], 0, false⟩

/-! ## AttachStreams (daemon/monitor.go lines 116-186) -/

/-- A libcontainerd.IOPipe: presence of each of the three runtime-provided
pipe endpoints. -/
structure IOPipe where
  stdin : Bool
  stdout : Bool
  stderr : Bool
deriving DecidableEq, Repr

/-- A background copy goroutine spawned by AttachStreams.  The stdout and
stderr copies go through the local `copy` closure that brackets the copy
with s.Add(1) / s.Done(); the stdin copy is spawned directly and never
touches the counter. -/
inductive CopyTask where
  | stdinCopy
  | stdoutCopy
  | stderrCopy
deriving DecidableEq, Repr

/-- Number of s.Done() calls a task performs when it finishes: the stdout
and stderr copies call s.Done() once in their goroutine, the stdin copy
never does. -/
def CopyTask.doneOnFinish : CopyTask → Nat
  | CopyTask.stdinCopy => 0
  | CopyTask.stdoutCopy => 1
  | CopyTask.stderrCopy => 1

/-- The stream-configuration and container data AttachStreams reads: whether
s.Stdin() is non-nil, and for the container case whether Config.Tty is set. -/
structure AttachSource where
  isContainer : Bool
  stdinSource : Bool
  tty : Bool
deriving DecidableEq, Repr

/-- Observable outcome of AttachStreams: the returned error, the number of
s.Add(1) calls made before returning, the background copy tasks spawned (in
spawn order) and whether iop.Stdin.Close() was called synchronously inside
AttachStreams itself. -/
structure AttachOut where
  result : Option String
  addCalls : Nat
  tasks : List CopyTask
  stdinClosedSync : Bool
deriving DecidableEq, Repr

/-- AttachStreams (daemon/monitor.go lines 116-186).  `src?` is the result
of resolving id: none when neither the registry nor the exec lookup knows
it, otherwise the resolved stream source.  `loggingFails` says whether
daemon.StartLogging fails (container case only).  The stdin wiring: with a
stdin source and a runtime stdin pipe a direct goroutine copies then closes
the pipe; with no stdin source the pipe is closed synchronously exactly
when the id resolved to a container whose Config.Tty is false.  Each
non-nil stdout/stderr pipe goes through the `copy` closure: s.Add(1), then
spawn. -/
def AttachStreams (srcOpt : Option AttachSource) (loggingFails : Bool)
    (iop : IOPipe) : AttachOut :=
  match srcOpt with
  | none => ⟨some "no such exec/container", 0, [], false⟩
  | some s =>
    if s.isContainer ∧ loggingFails then
      ⟨some "StartLogging failed", 0, [], false⟩
    else
      let stdinTasks : List CopyTask :=
        if s.stdinSource ∧ iop.stdin then [CopyTask.stdinCopy] else []
      let closedSync : Bool :=
        if s.stdinSource then false
        else s.isContainer && !s.tty && iop.stdin
      let outTasks : List CopyTask :=
        if iop.stdout then [CopyTask.stdoutCopy] else []
      let errTasks : List CopyTask :=
        if iop.stderr then [CopyTask.stderrCopy] else []
      ⟨none,
       (if iop.stdout then 1 else 0) + (if iop.stderr then 1 else 0),
       stdinTasks ++ outTasks ++ errTasks,
       closedSync⟩

/-! ## Port-binding translation inside Create
(client_windows.go lines 156-193)

The nat.Port and nat.PortBinding types of pkg/nat are not under src/:
nat.Port carries a container port number and a protocol (its Port() and
Proto() accessors return the two halves), nat.PortBinding carries HostIP
and HostPort strings. -/

/-- A nat.Port as seen through its Port() and Proto() accessors. -/
structure NatPort where
  port : String
  proto : String
deriving DecidableEq, Repr

/-- A nat.PortBinding. -/
structure NatPortBinding where
  hostIP : String
  hostPort : String
deriving DecidableEq, Repr

/-- Go strings.ToUpper, on the character sequence of the string (the
protocols of interest are ASCII, where Go and Unicode upper-casing
agree). -/
def goToUpper (s : String) : String :=
  ⟨s.data.map Char.toUpper⟩

/-- The portBinding payload entry of the HCS configuration
(client_windows.go lines 48-52). -/
structure portBinding where
  Protocol : String
  InternalPort : Int
  ExternalPort : Int
deriving DecidableEq, Repr

/-- Go strconv.Atoi: an optional single + or - sign followed by at least
one ASCII digit; anything else is an error.  (Overflow of the 64-bit range
is not modelled; all ports of interest are far below it.) -/
def goAtoi (s : String) : Option Int :=
  match s.toList with
  | [] => none
  | c :: rest =>
    let signed : Bool × List Char :=
      if c = '-' then (true, rest)
      else if c = '+' then (false, rest)
      else (false, c :: rest)
    match signed with
    | (neg, ds) =>
      if ds = [] then none
      else if ds.all Char.isDigit then
        let n : Nat := ds.foldl (fun a d => a * 10 + (d.toNat - 48)) 0
        some (if neg then -(n : Int) else (n : Int))
      else none

/-- The inner loop over the host-port bindings v of one container port
(client_windows.go lines 171-192): reject a non-empty HostIP, parse the
host port and the container port with Atoi, range-check both, and emit the
payload entry. -/
def translateBindings (i : NatPort) (proto : String) :
    List NatPortBinding → Except String (List portBinding)
  | [] => Except.ok []
  | v2 :: rest =>
    if v2.hostIP ≠ "" then
      Except.error "Windows does not support host IP addresses in NAT settings"
    else
      match goAtoi v2.hostPort with
      | none => Except.error ("invalid container port " ++ v2.hostPort)
      | some ePort =>
        match goAtoi i.port with
        | none => Except.error ("invalid internal port " ++ i.port)
        | some iPort =>
          if iPort < 0 ∨ iPort > 65535 ∨ ePort < 0 ∨ ePort > 65535 then
            Except.error "specified NAT port is not in allowed range"
          else
            match translateBindings i proto rest with
            | Except.error msg => Except.error msg
            | Except.ok tail =>
              Except.ok ({ Protocol := proto, InternalPort := iPort,
                           ExternalPort := ePort } :: tail)

/-- One iteration of the outer loop over PortBindings (client_windows.go
lines 161-193): upper-case the protocol and require TCP or UDP, allow at
most one host port, then translate the bindings. -/
def translateEntry (i : NatPort) (v : List NatPortBinding) :
    Except String (List portBinding) :=
  let proto := goToUpper i.proto
  if proto ≠ "TCP" ∧ proto ≠ "UDP" then
    Except.error ("invalid protocol " ++ i.proto)
  else if v.length > 1 then
    Except.error "Windows does not support more than one host port in NAT settings"
  else
    translateBindings i proto v

/-- The whole translation of spec.Windows.Networking.PortBindings into the
pbs list of the HCS payload (client_windows.go lines 160-193), with the map
ranged over in the given list order. -/
def translatePortBindings :
    List (NatPort × List NatPortBinding) → Except String (List portBinding)
  | [] => Except.ok []
  | (i, v) :: rest =>
    match translateEntry i v with
    | Except.error msg => Except.error msg
    | Except.ok pbs =>
      match translatePortBindings rest with
      | Except.error msg => Except.error msg
      | Except.ok tail => Except.ok (pbs ++ tail)

/-- True when an Except value is an error. -/
def isErr {α : Type} : Except String α → Bool
  | Except.error _ => true
  | Except.ok _ => false

/-! ## Theorems -/

/-- C1 counterexample. The claim says that when every creation attempt
fails with a transient error, Create returns the last creation error.  On
the run where every attempt fails with ErrorNoNetwork (transient) and
container.start() fails with a distinct error, Create makes its 5 attempts
but does not return the creation error: the loop falls through to
newContainer/start and Create returns the start result instead. -/
theorem create_tp4_claim_false :
    (Create true (fun _ => some (GoErr.hcs HcsCode.errorNoNetwork))
        (some (GoErr.other "start failed"))).attempts = 5 ∧
    (Create true (fun _ => some (GoErr.hcs HcsCode.errorNoNetwork))
        (some (GoErr.other "start failed"))).result ≠
      some (GoErr.hcs HcsCode.errorNoNetwork) := by
  decide

/-- C1 (amended). On the TP4 retry path: if every creation attempt fails
with an HcsError from the enumerated transient set, Create issues exactly 5
creation attempts with a 50ms sleep after each failed attempt, then
proceeds to construct the container handle and call container.start(),
returning the start result (and running the deferred deleteContainer, since
the recorded creation error is non-nil) rather than returning the last
creation error; if an attempt fails with an HcsError outside the transient
set, Create aborts immediately after that attempt and returns that error
with no further attempts, no delete and no start. -/
theorem create_tp4_retry_behaviour :
    (∀ ccs st, allTransient ccs →
      Create true ccs st = ⟨st, 5, 5, true, true⟩) ∧
    (∀ ccs st c, ccs 0 = some (GoErr.hcs c) → isTransientCode c = false →
      Create true ccs st = ⟨some (GoErr.hcs c), 1, 0, false, false⟩) := by
  constructor
  · intro ccs st h
    obtain ⟨c0, h0, t0⟩ := h 0 (by norm_num)
    obtain ⟨c1, h1, t1⟩ := h 1 (by norm_num)
    obtain ⟨c2, h2, t2⟩ := h 2 (by norm_num)
    obtain ⟨c3, h3, t3⟩ := h 3 (by norm_num)
    obtain ⟨c4, h4, t4⟩ := h 4 (by norm_num)
    simp [Create, tp4Loop, h0, t0, h1, t1, h2, t2, h3, t3, h4, t4]
  · intro ccs st c h0 t0
    simp [Create, tp4Loop, h0, t0]

/-- Witness for create_tp4_retry_behaviour at concrete runs. -/
theorem create_tp4_retry_behaviour_witness :
    Create true (fun _ => some (GoErr.hcs HcsCode.errorNoNetwork))
        (some (GoErr.other "start failed")) =
      ⟨some (GoErr.other "start failed"), 5, 5, true, true⟩ ∧
    Create true (fun _ => some (GoErr.hcs (HcsCode.otherCode 5))) none =
      ⟨some (GoErr.hcs (HcsCode.otherCode 5)), 1, 0, false, false⟩ :=
  ⟨create_tp4_retry_behaviour.1 _ _ (fun i hi => ⟨HcsCode.errorNoNetwork, rfl, rfl⟩),
   create_tp4_retry_behaviour.2 _ _ _ rfl rfl⟩

/-- C2. On the run where runtime-level creation succeeds on the first
attempt and container.start() fails, Create returns the start error but the
deferred deleteContainer does not run (the deferred cleanup tests the
creation-phase err variable, which is nil because the return value of
Create is unnamed and `return container.start()` assigns nothing to err):
on both the TP4 and the non-TP4 path the runtime-level container is left
in place. -/
theorem create_start_failure_no_delete :
    Create true (fun _ => none) (some (GoErr.other "start failed")) =
      ⟨some (GoErr.other "start failed"), 1, 0, false, true⟩ ∧
    Create false (fun _ => none) (some (GoErr.other "start failed")) =
      ⟨some (GoErr.other "start failed"), 1, 0, false, true⟩ := by
  decide

/-- C3. Signal on an id absent from the client's container table returns a
NotFound error and issues no runtime call; on a present id with the
force-kill signal it makes exactly one terminate-container call and nothing
else, and with any other signal exactly one signal-process call followed by
exactly one shutdown call; in every non-NotFound case it returns success,
whatever the outcomes of the runtime calls (the three Bool failure flags
are quantified and never influence the result). -/
theorem signal_semantics (table : List (String × Nat)) (id : String) (sig : Int)
    (f1 f2 f3 : Bool) :
    (getContainer table id = none →
      (Signal table id sig f1 f2 f3).1.isSome = true ∧
      (Signal table id sig f1 f2 f3).2 = []) ∧
    (∀ pid, getContainer table id = some pid →
      (sig = SIGKILL →
        Signal table id sig f1 f2 f3 =
          (none, [RuntimeCall.terminateComputeSystem id])) ∧
      (sig ≠ SIGKILL →
        Signal table id sig f1 f2 f3 =
          (none, [RuntimeCall.terminateProcessInComputeSystem id pid,
                  RuntimeCall.shutdownComputeSystem id]))) := by
  refine ⟨fun h => ?_, fun pid h => ⟨fun hk => ?_, fun hk => ?_⟩⟩
  · simp [Signal, h]
  · simp [Signal, h, hk]
  · simp [Signal, h, hk]

/-- Witness for signal_semantics: an absent id, a present id with SIGKILL,
and a present id with signal 15. -/
theorem signal_semantics_witness :
    ((Signal [] "c1" 9 true true true).1.isSome = true ∧
      (Signal [] "c1" 9 true true true).2 = []) ∧
    Signal [("c1", 7)] "c1" 9 true true true =
      (none, [RuntimeCall.terminateComputeSystem "c1"]) ∧
    Signal [("c1", 7)] "c1" 15 false false false =
      (none, [RuntimeCall.terminateProcessInComputeSystem "c1" 7,
              RuntimeCall.shutdownComputeSystem "c1"]) :=
  ⟨(signal_semantics [] "c1" 9 true true true).1 (by decide),
   ((signal_semantics [("c1", 7)] "c1" 9 true true true).2 7 (by decide)).1 rfl,
   ((signal_semantics [("c1", 7)] "c1" 15 false false false).2 7 (by decide)).2
     (by decide)⟩

/-- The container state produced by one StateRestart event: Reset, then the
restart-count increment, then SetRestarting (monitor.go lines 58-62). -/
def restartResult (c : ContainerState) (ec : Int) : ContainerState :=
  ContainerState.setRestarting
    { c.reset with restartCount := c.reset.restartCount + 1 } ec

/-- Helper: what the restart branch of StateChanged does to a registered
container. -/
theorem stateChanged_restart_step (goos id : String) (e : StateInfo)
    (he : e.state = EventState.restart) (c : ContainerState) :
    StateChanged goos [(id, c)] id e false =
      ⟨some (restartResult c e.exitCode), some (restartResult c e.exitCode),
       none, [EngineEvent.die e.exitCode], 0, false⟩ := by
  simp [StateChanged, findContainer, he, restartResult]

/-- The in-memory container after k StateRestart events, each handled by
StateChanged on a registry holding just this container. -/
def restartIter (goos id : String) (e : StateInfo) (c : ContainerState) :
    Nat → ContainerState
  | 0 => c
  | k + 1 =>
    ((StateChanged goos [(id, restartIter goos id e c k)] id e false).c).getD
      (restartIter goos id e c k)

/-- Helper: each restart event adds one to the restart count. -/
theorem restartIter_count (goos id : String) (e : StateInfo)
    (he : e.state = EventState.restart) (c : ContainerState) :
    ∀ k, (restartIter goos id e c k).restartCount = c.restartCount + k := by
  intro k
  induction k with
  | zero => rfl
  | succ k ih =>
    rw [restartIter, stateChanged_restart_step goos id e he]
    simp only [Option.getD_some]
    simp [restartResult, ContainerState.reset, ContainerState.setRestarting, ih]
    omega

/-- C4. Starting from a container whose restart count is 0, the k-th
StateRestart event handled by StateChanged persists (via a successful
ToDisk) exactly the state it leaves in memory, and that state carries
restart count k with the restarting flag already recorded: the counter is
incremented before the restarting state is recorded and before
persistence. -/
theorem stateChanged_restart_count (goos id : String) (e : StateInfo)
    (c : ContainerState) (he : e.state = EventState.restart)
    (h0 : c.restartCount = 0) :
    ∀ k, (StateChanged goos [(id, restartIter goos id e c k)] id e false).persisted =
        some (restartIter goos id e c (k + 1)) ∧
      (restartIter goos id e c (k + 1)).restartCount = k + 1 ∧
      (restartIter goos id e c (k + 1)).restarting = true := by
  intro k
  refine ⟨?_, ?_, ?_⟩
  · rw [stateChanged_restart_step goos id e he, restartIter,
        stateChanged_restart_step goos id e he]
    simp
  · rw [restartIter_count goos id e he c (k + 1), h0]
    omega
  · rw [restartIter, stateChanged_restart_step goos id e he]
    simp [restartResult, ContainerState.setRestarting]

/-- Sample container for witness instantiations: restart count 0, empty
exec table. -/
def sampleContainer : ContainerState :=
  ⟨"c1", false, false, false, 0, 0, false, 0, true, []⟩

/-- Sample StateRestart event for witness instantiations. -/
def sampleRestartEvent : StateInfo :=
  ⟨EventState.restart, 0, "", 7⟩

/-- Witness for stateChanged_restart_count: the second restart event on the
sample container persists restart count 2. -/
theorem stateChanged_restart_count_witness :
    (StateChanged "linux"
        [("c1", restartIter "linux" "c1" sampleRestartEvent sampleContainer 1)]
        "c1" sampleRestartEvent false).persisted =
      some (restartIter "linux" "c1" sampleRestartEvent sampleContainer 2) ∧
    (restartIter "linux" "c1" sampleRestartEvent sampleContainer 2).restartCount = 2 ∧
    (restartIter "linux" "c1" sampleRestartEvent sampleContainer 2).restarting = true :=
  stateChanged_restart_count "linux" "c1" sampleRestartEvent sampleContainer rfl rfl 1

/-- C5. For a Start or Restore event on a registered container: when ToDisk
succeeds, StateChanged leaves the container running with the
runtime-assigned pid recorded and persists exactly that state, returning
success; when ToDisk fails, the in-memory state is rolled back to
non-running, nothing is persisted, and the error is returned; and in no
case does StateChanged return with the handle marked running unless the
corresponding persist succeeded. -/
theorem stateChanged_start_persist (goos id : String) (c : ContainerState)
    (e : StateInfo) (fail : Bool)
    (he : e.state = EventState.start ∨ e.state = EventState.restore) :
    (fail = false → ∃ c2,
      (StateChanged goos [(id, c)] id e fail).c = some c2 ∧
      c2.running = true ∧ c2.pid = e.pid ∧
      (StateChanged goos [(id, c)] id e fail).persisted = some c2 ∧
      (StateChanged goos [(id, c)] id e fail).result = none) ∧
    (fail = true → ∃ c2,
      (StateChanged goos [(id, c)] id e fail).c = some c2 ∧
      c2.running = false ∧
      (StateChanged goos [(id, c)] id e fail).persisted = none ∧
      (StateChanged goos [(id, c)] id e fail).result.isSome = true) ∧
    (∀ c2, (StateChanged goos [(id, c)] id e fail).c = some c2 →
      c2.running = true →
      (StateChanged goos [(id, c)] id e fail).persisted = some c2) := by
  rcases he with he | he <;> cases fail <;>
    simp [StateChanged, findContainer, he, ContainerState.setRunning,
      ContainerState.reset]

/-- Sample Start event for witness instantiations. -/
def sampleStartEvent : StateInfo :=
  ⟨EventState.start, 42, "", 0⟩

/-- Witness for stateChanged_start_persist: a Start event on the sample
container with a successful persist. -/
theorem stateChanged_start_persist_witness :
    ∃ c2,
      (StateChanged "linux" [("c1", sampleContainer)] "c1" sampleStartEvent false).c =
        some c2 ∧
      c2.running = true ∧ c2.pid = sampleStartEvent.pid ∧
      (StateChanged "linux" [("c1", sampleContainer)] "c1" sampleStartEvent
        false).persisted = some c2 ∧
      (StateChanged "linux" [("c1", sampleContainer)] "c1" sampleStartEvent
        false).result = none :=
  (stateChanged_start_persist "linux" "c1" sampleContainer sampleStartEvent false
    (Or.inl rfl)).1 rfl

/-- C6. An ExitProcess event whose process id is not in the container's
exec-command table leaves the container handle exactly as it was (exec
table included), persists nothing, emits no engine event, runs no cleanup,
logs one warning and returns success. -/
theorem stateChanged_stale_exitProcess (goos id : String) (c : ContainerState)
    (e : StateInfo) (fail : Bool) (he : e.state = EventState.exitProcess)
    (hn : c.execCommands.find? (fun ec => ec.id = e.processID) = none) :
    StateChanged goos [(id, c)] id e fail = ⟨some c, none, none, [], 1, false⟩ := by
  simp [StateChanged, findContainer, he, hn]

/-- Sample container holding one exec session, for witness instantiations. -/
def sampleExecContainer : ContainerState :=
  ⟨"c1", true, false, false, 5, 0, false, 0, true, [⟨"e1", none, true, false⟩]⟩

/-- Witness for stateChanged_stale_exitProcess: an ExitProcess event for
exec id e2 on a container that only tracks e1. -/
theorem stateChanged_stale_exitProcess_witness :
    StateChanged "linux" [("c1", sampleExecContainer)] "c1"
        ⟨EventState.exitProcess, 0, "e2", 3⟩ false =
      ⟨some sampleExecContainer, none, none, [], 1, false⟩ :=
  stateChanged_stale_exitProcess "linux" "c1" sampleExecContainer
    ⟨EventState.exitProcess, 0, "e2", 3⟩ false rfl (by decide)

/-- C9. An OOM event on Windows makes StateChanged return an error without
touching the container, persisting anything or emitting any engine event;
on any other platform it emits the engine-level oom event and returns
success, again leaving the container untouched. -/
theorem stateChanged_oom (goos id : String) (c : ContainerState) (e : StateInfo)
    (fail : Bool) (he : e.state = EventState.oom) :
    (goos = "windows" → StateChanged goos [(id, c)] id e fail =
      ⟨some c, none,
       some "Received StateOOM from libcontainerd on Windows. This should never happen.",
       [], 0, false⟩) ∧
    (goos ≠ "windows" → StateChanged goos [(id, c)] id e fail =
      ⟨some c, none, none, [EngineEvent.oomEvent], 0, false⟩) := by
  constructor <;> intro hg <;> simp [StateChanged, findContainer, he, hg]

/-- Sample OOM event for witness instantiations. -/
def sampleOomEvent : StateInfo :=
  ⟨EventState.oom, 0, "", 0⟩

/-- Witness for stateChanged_oom on both platform cases. -/
theorem stateChanged_oom_witness :
    StateChanged "windows" [("c1", sampleContainer)] "c1" sampleOomEvent false =
      ⟨some sampleContainer, none,
       some "Received StateOOM from libcontainerd on Windows. This should never happen.",
       [], 0, false⟩ ∧
    StateChanged "linux" [("c1", sampleContainer)] "c1" sampleOomEvent false =
      ⟨some sampleContainer, none, none, [EngineEvent.oomEvent], 0, false⟩ :=
  ⟨(stateChanged_oom "windows" "c1" sampleContainer sampleOomEvent false rfl).1 rfl,
   (stateChanged_oom "linux" "c1" sampleContainer sampleOomEvent false rfl).2
     (by decide)⟩

/-- C7. AttachStreams on a container (logging succeeding) whose stream
configuration exposes no stdin source, with a runtime-provided stdin pipe:
when the container has no pseudo-terminal the pipe is closed synchronously
before AttachStreams returns, and when it has one the pipe is left open. -/
theorem attachStreams_stdin_close (tty lf : Bool) (iop : IOPipe)
    (hlf : lf = false) (hin : iop.stdin = true) :
    (tty = false →
      (AttachStreams (some ⟨true, false, tty⟩) lf iop).stdinClosedSync = true) ∧
    (tty = true →
      (AttachStreams (some ⟨true, false, tty⟩) lf iop).stdinClosedSync = false) := by
  subst hlf
  constructor <;> intro ht <;> subst ht <;> simp [AttachStreams, hin]

/-- Witness for attachStreams_stdin_close: no-source container without and
with a pseudo-terminal. -/
theorem attachStreams_stdin_close_witness :
    (AttachStreams (some ⟨true, false, false⟩) false ⟨true, true, true⟩).stdinClosedSync =
      true ∧
    (AttachStreams (some ⟨true, false, true⟩) false ⟨true, true, true⟩).stdinClosedSync =
      false :=
  ⟨(attachStreams_stdin_close false false ⟨true, true, true⟩ rfl rfl).1 rfl,
   (attachStreams_stdin_close true false ⟨true, true, true⟩ rfl rfl).2 rfl⟩

/-- C10. On every successful AttachStreams path the pending-copy counter is
incremented exactly once per non-nil stdout pipe and once per non-nil
stderr pipe — a formula independent of the stdin source and the stdin pipe,
so the stdin copy task never touches the counter — and the s.Done() calls
performed by the spawned tasks when they finish match the increments
exactly (the stdin copy task performs none). -/
theorem attachStreams_counter (s : AttachSource) (lf : Bool) (iop : IOPipe)
    (hok : s.isContainer = false ∨ lf = false) :
    (AttachStreams (some s) lf iop).addCalls =
      (if iop.stdout then 1 else 0) + (if iop.stderr then 1 else 0) ∧
    ((AttachStreams (some s) lf iop).tasks.map CopyTask.doneOnFinish).sum =
      (AttachStreams (some s) lf iop).addCalls := by
  obtain ⟨ic, ss, tt⟩ := s
  obtain ⟨i1, o1, e1⟩ := iop
  rcases hok with h | h <;> subst h <;> cases ss <;> cases i1 <;> cases o1 <;>
    cases e1 <;> simp [AttachStreams, CopyTask.doneOnFinish]

/-- Witness for attachStreams_counter: a container with a stdin source and
all three pipes present increments the counter twice and the spawned tasks
give back exactly two Done calls. -/
theorem attachStreams_counter_witness :
    (AttachStreams (some ⟨true, true, false⟩) false ⟨true, true, true⟩).addCalls =
      (if (true : Bool) then 1 else 0) + (if (true : Bool) then 1 else 0) ∧
    ((AttachStreams (some ⟨true, true, false⟩) false
        ⟨true, true, true⟩).tasks.map CopyTask.doneOnFinish).sum =
      (AttachStreams (some ⟨true, true, false⟩) false ⟨true, true, true⟩).addCalls :=
  attachStreams_counter ⟨true, true, false⟩ false ⟨true, true, true⟩ (Or.inr rfl)

/-- C8. The port-binding translation of Create rejects a protocol that is
not TCP or UDP up to case, rejects a container port with more than one host
port, rejects a binding with a non-empty host IP, rejects internal or
external ports outside 0-65535, and translates the single binding of
protocol tcp with host port 8080 on container port 80/tcp to the payload
entry with Protocol TCP, InternalPort 80 and ExternalPort 8080. -/
theorem portBindings_validation :
    (∀ i v, goToUpper i.proto ≠ "TCP" → goToUpper i.proto ≠ "UDP" →
      isErr (translatePortBindings [(i, v)]) = true) ∧
    (∀ i v, 1 < v.length →
      isErr (translatePortBindings [(i, v)]) = true) ∧
    (∀ i v2, v2.hostIP ≠ "" →
      isErr (translatePortBindings [(i, [v2])]) = true) ∧
    (∀ i v2 ip ep, goAtoi i.port = some ip → goAtoi v2.hostPort = some ep →
      (ip < 0 ∨ ip > 65535 ∨ ep < 0 ∨ ep > 65535) →
      isErr (translatePortBindings [(i, [v2])]) = true) ∧
    translatePortBindings [(⟨"80", "tcp"⟩, [⟨"", "8080"⟩])] =
      Except.ok [⟨"TCP", 80, 8080⟩] := by
  refine ⟨fun i v h1 h2 => ?_, fun i v hv => ?_, fun i v2 hip => ?_,
    fun i v2 ip ep hi he hrange => ?_, ?_⟩
  · simp [translatePortBindings, translateEntry, h1, h2, isErr]
  · by_cases hp : goToUpper i.proto ≠ "TCP" ∧ goToUpper i.proto ≠ "UDP"
    · simp [translatePortBindings, translateEntry, hp, isErr]
    · simp [translatePortBindings, translateEntry, hp, hv, isErr]
  · by_cases hp : goToUpper i.proto ≠ "TCP" ∧ goToUpper i.proto ≠ "UDP"
    · simp [translatePortBindings, translateEntry, hp, isErr]
    · simp [translatePortBindings, translateEntry, translateBindings, hp, hip,
        isErr]
  · by_cases hp : goToUpper i.proto ≠ "TCP" ∧ goToUpper i.proto ≠ "UDP"
    · simp [translatePortBindings, translateEntry, hp, isErr]
    · by_cases hipe : v2.hostIP = ""
      · simp [translatePortBindings, translateEntry, translateBindings, hp,
          hipe, hi, he, hrange, isErr]
      · simp [translatePortBindings, translateEntry, translateBindings, hp,
          hipe, isErr]
  · rfl

/-- Witness for portBindings_validation: an icmp binding, a doubly-bound
container port, a host-IP binding and an out-of-range port are all
rejected. -/
theorem portBindings_validation_witness :
    isErr (translatePortBindings [(⟨"80", "icmp"⟩, [])]) = true ∧
    isErr (translatePortBindings
      [(⟨"80", "tcp"⟩, [⟨"", "8080"⟩, ⟨"", "8081"⟩])]) = true ∧
    isErr (translatePortBindings [(⟨"80", "tcp"⟩, [⟨"127.0.0.1", "8080"⟩])]) =
      true ∧
    isErr (translatePortBindings [(⟨"70000", "tcp"⟩, [⟨"", "8080"⟩])]) = true :=
  ⟨portBindings_validation.1 ⟨"80", "icmp"⟩ [] (by decide) (by decide),
   portBindings_validation.2.1 ⟨"80", "tcp"⟩ [⟨"", "8080"⟩, ⟨"", "8081"⟩]
     (by decide),
   portBindings_validation.2.2.1 ⟨"80", "tcp"⟩ ⟨"127.0.0.1", "8080"⟩ (by decide),
   portBindings_validation.2.2.2.1 ⟨"70000", "tcp"⟩ ⟨"", "8080"⟩ 70000 8080
     (by decide) (by decide) (by decide)⟩

end Docker
